import Mathlib

/-!
Shallow embedding of the time-tracking core of kintai-fe (`src/src/App.tsx`).

Timestamps are absolute instants in epoch milliseconds, modelled as `Int`
(the value of `new Date(log.timestamp).getTime()`).  The JavaScript `Date`
calendar arithmetic used by `calculateTodayWorkTime` (`getHours`, `setDate`,
`setHours`) is modelled at UTC offset zero: `getHours t` is the hour-of-day of
instant `t`, and `startOfToday now` is the instant produced by the block that
rewinds `now` to the most recent logical day start `RESET_HOUR:00:00.000`.

Event kinds and user statuses are modelled as the runtime strings the code
compares against (`log.type === 'work_start'`, `currentStatus === 'working'`):
the data arrives from a JSON response with no validation, so at runtime a log
entry may carry an arbitrary string in its `type` field, and the `if`/`else if`
chain of the loop falls through silently on any string other than the four
known kinds.  The internal clock read `const now = new Date()` is made an
explicit argument `now`, so the embedding is the source computation as a
function of the instant at which the clock was read.
-/

/-- One entry of `attendanceLog`: `{ type, timestamp }`, with the ISO timestamp
already converted to epoch milliseconds. -/
structure LogEntry where
  type : String
  timestamp : Int
  deriving DecidableEq, Repr

/-- `const RESET_HOUR = 5;` the hour-of-day at which a logical day begins. -/
def RESET_HOUR : Int := 5

/-- Milliseconds per hour (1000 * 60 * 60). -/
def msPerHour : Int := 3600000

/-- Milliseconds per calendar day (1000 * 60 * 60 * 24). -/
def msPerDay : Int := 86400000

/-- `t.getHours()` at UTC offset zero: the hour-of-day of instant `t`,
in `0..23` for every `t` (also negative `t`, via flooring modulus). -/
def getHours (t : Int) : Int := t.emod msPerDay / msPerHour

/-- The `startOfToday` block of `calculateTodayWorkTime`: copy `now`; if
`now.getHours() < RESET_HOUR` step one calendar day back; then set the time of
day to `RESET_HOUR:00:00.000`.  Returns `startOfToday.getTime()`. -/
def startOfToday (now : Int) : Int :=
  let day := if getHours now < RESET_HOUR then now.fdiv msPerDay - 1 else now.fdiv msPerDay
  day * msPerDay + RESET_HOUR * msPerHour

/-- Body of the `for (const log of logs)` loop of `calculateTodayWorkTime`.
The loop state is the pair `(totalTime, lastStartTime)`; `lastStartTime` is
`none` for the JavaScript `null`.  A `type` string that is none of the four
known kinds matches neither branch and leaves the state unchanged. -/
def scanStep (startOfTodayTime : Int) (acc : Int × Option Int) (log : LogEntry) :
    Int × Option Int :=
  if log.type = "work_start" ∨ log.type = "break_end" then
    (acc.1, some log.timestamp)
  else if log.type = "work_end" ∨ log.type = "break_start" then
    match acc.2 with
    | some lastStartTime =>
      let effectiveStart := max lastStartTime startOfTodayTime
      let effectiveEnd := log.timestamp
      (if effectiveEnd > effectiveStart then acc.1 + (effectiveEnd - effectiveStart) else acc.1,
        none)
    | none => acc
  else acc

/-- `calculateTodayWorkTime(logs, currentStatus)` with the internal clock read
`const now = new Date()` made explicit as the argument `now` (in epoch ms). -/
def calculateTodayWorkTime (logs : List LogEntry) (currentStatus : String) (now : Int) : Int :=
  let startOfTodayTime := startOfToday now
  let r := logs.foldl (scanStep startOfTodayTime) (0, none)
  if currentStatus = "working" then
    match r.2 with
    | some lastStartTime =>
      let effectiveStart := max lastStartTime startOfTodayTime
      if now > effectiveStart then r.1 + (now - effectiveStart) else r.1
    | none => r.1
  else r.1

/-- The clipped duration a closed interval `[lastStartTime, effectiveEnd)`
contributes to the bucket starting at `bucketStart` (`calculateTodayWorkTime`
lines 53-57: `effectiveStart = Math.max(lastStartTime, startOfTodayTime)`, then
add `effectiveEnd - effectiveStart` exactly when it is positive).  The code's
single bucket, today, has no upper end: nothing clips `effectiveEnd`. -/
def clipContribution (bucketStart lastStartTime effectiveEnd : Int) : Int :=
  let effectiveStart := max lastStartTime bucketStart
  if effectiveEnd > effectiveStart then effectiveEnd - effectiveStart else 0

/-- `s.padStart(targetLength, pad)` for a single pad character. -/
def padStart (s : String) (targetLength : Nat) (pad : Char) : String :=
  String.mk (List.replicate (targetLength - s.length) pad) ++ s

/-- `formatDuration(ms)` (App.tsx lines 77-83): format milliseconds as
`HH:MM:SS`.  For a non-negative integer `ms` the JavaScript float expressions
`Math.floor((ms / 1000) % 60)`, `Math.floor((ms / (1000*60)) % 60)` and
`Math.floor(ms / (1000*60*60))` coincide with the integer computations below. -/
def formatDuration (ms : Nat) : String :=
  let seconds := ms / 1000 % 60
  let minutes := ms / (1000 * 60) % 60
  let hours := ms / (1000 * 60 * 60)
  padStart (toString hours) 2 '0' ++ ":" ++ padStart (toString minutes) 2 '0' ++ ":"
    ++ padStart (toString seconds) 2 '0'

/-! ### Helper lemmas about the scan -/

/-- A start-like event stores its timestamp as the pending start. -/
theorem scanStep_start (sot : Int) (acc : Int × Option Int) (e : LogEntry)
    (h : e.type = "work_start" ∨ e.type = "break_end") :
    scanStep sot acc e = (acc.1, some e.timestamp) := by
  unfold scanStep
  rcases h with h | h <;> simp [h]

/-- An end-like event closes the pending interval (adding its clipped
contribution) or, with no pending start, leaves the state unchanged. -/
theorem scanStep_end (sot : Int) (acc : Int × Option Int) (e : LogEntry)
    (h : e.type = "work_end" ∨ e.type = "break_start") :
    scanStep sot acc e =
      match acc.2 with
      | some s => (acc.1 + clipContribution sot s e.timestamp, none)
      | none => acc := by
  have h1 : ¬(e.type = "work_start" ∨ e.type = "break_end") := by
    rcases h with h | h <;> simp [h]
  unfold scanStep clipContribution
  rcases h with h | h <;> rcases hacc : acc.2 with _ | s <;>
    simp [h, h1, hacc] <;> split <;> omega

/-- An event of any unrecognized kind leaves the scan state unchanged. -/
theorem scanStep_other (sot : Int) (acc : Int × Option Int) (e : LogEntry)
    (h1 : e.type ≠ "work_start") (h2 : e.type ≠ "work_end")
    (h3 : e.type ≠ "break_start") (h4 : e.type ≠ "break_end") :
    scanStep sot acc e = acc := by
  unfold scanStep
  simp [h1, h2, h3, h4]

/-- One scan step never decreases the accumulated total. -/
theorem scanStep_fst_mono (sot : Int) (acc : Int × Option Int) (e : LogEntry) :
    acc.1 ≤ (scanStep sot acc e).1 := by
  unfold scanStep
  split
  · exact le_rfl
  · split
    · rcases hacc : acc.2 with _ | s <;> simp [hacc]
      split <;> omega
    · exact le_rfl

/-- The whole scan never decreases the accumulated total. -/
theorem foldl_scanStep_fst_mono (sot : Int) (logs : List LogEntry) (acc : Int × Option Int) :
    acc.1 ≤ (logs.foldl (scanStep sot) acc).1 := by
  induction logs generalizing acc with
  | nil => exact le_rfl
  | cons e rest ih =>
    calc acc.1 ≤ (scanStep sot acc e).1 := scanStep_fst_mono sot acc e
      _ ≤ _ := ih _

/-- The conditional addition of the code is the clamped difference. -/
theorem ite_sub_eq_max (x m : Int) : (if x > m then x - m else 0) = max 0 (x - m) := by
  rcases le_or_lt x m with h | h
  · rw [if_neg (not_lt.2 h), max_eq_left (by omega)]
  · rw [if_pos h, max_eq_right (by omega)]

/-- The conditional addition of the code is never negative. -/
theorem ite_sub_nonneg (x m : Int) : 0 ≤ (if x > m then x - m else 0) := by
  rcases le_or_lt x m with h | h
  · rw [if_neg (not_lt.2 h)]
  · rw [if_pos h]; omega

/-- `calculateTodayWorkTime` in closed form: the scanned total plus, exactly
when the supplied status is `working` and a start is pending, the clamped
clipped duration of the final open interval. -/
theorem calculateTodayWorkTime_eq (logs : List LogEntry) (st : String) (now : Int) :
    calculateTodayWorkTime logs st now =
      (logs.foldl (scanStep (startOfToday now)) (0, none)).1 +
        (if st = "working" then
          match (logs.foldl (scanStep (startOfToday now)) (0, none)).2 with
          | some s =>
            if now > max s (startOfToday now) then now - max s (startOfToday now) else 0
          | none => 0
        else 0) := by
  unfold calculateTodayWorkTime
  rcases hr : (logs.foldl (scanStep (startOfToday now)) (0, none)).2 with _ | s <;>
    by_cases hst : st = "working" <;> simp [hr, hst]
  split <;> simp

/-! ### Claim theorems -/

/-- C1: after the forward scan, with a pending open start `s` the aggregator
adds the (clamped, clipped-to-today) duration of the final interval `[s, now)`
exactly when the supplied status is `working`, and adds nothing for every other
status; concretely `[WorkStart@10:00]` with status `unregistered` at
`now = 12:00` totals `0`, and `[WorkStart@09:00]` with status `working` at
`now = 09:30` totals 30 minutes (1800000 ms). -/
theorem C1_final_open_interval (logs : List LogEntry) (now : Int) :
    (∀ s : Int,
      (logs.foldl (scanStep (startOfToday now)) (0, none)).2 = some s →
      calculateTodayWorkTime logs "working" now =
        (logs.foldl (scanStep (startOfToday now)) (0, none)).1 +
          max 0 (now - max s (startOfToday now))) ∧
    (∀ st : String, st ≠ "working" →
      calculateTodayWorkTime logs st now =
        (logs.foldl (scanStep (startOfToday now)) (0, none)).1) ∧
    calculateTodayWorkTime [LogEntry.mk "work_start" 36000000] "unregistered" 43200000 = 0 ∧
    calculateTodayWorkTime [LogEntry.mk "work_start" 32400000] "working" 34200000 = 1800000 := by
  refine ⟨?_, ?_, by decide, by decide⟩
  · intro s hs
    rw [calculateTodayWorkTime_eq, if_pos rfl]
    simp only [hs]
    rw [ite_sub_eq_max now (max s (startOfToday now))]
  · intro st hst
    rw [calculateTodayWorkTime_eq, if_neg hst, add_zero]

/-- C1 witness: the theorem applied to the concrete log `[WorkStart@10:00]` at
`now = 12:00`, once with status `working` and once with status `unregistered`. -/
theorem C1_final_open_interval_witness :
    calculateTodayWorkTime [LogEntry.mk "work_start" 36000000] "working" 43200000 =
      (([LogEntry.mk "work_start" 36000000] : List LogEntry).foldl
        (scanStep (startOfToday 43200000)) (0, none)).1 +
        max 0 (43200000 - max 36000000 (startOfToday 43200000)) ∧
    calculateTodayWorkTime [LogEntry.mk "work_start" 36000000] "unregistered" 43200000 =
      (([LogEntry.mk "work_start" 36000000] : List LogEntry).foldl
        (scanStep (startOfToday 43200000)) (0, none)).1 :=
  ⟨(C1_final_open_interval [LogEntry.mk "work_start" 36000000] 43200000).1 36000000 (by decide),
    (C1_final_open_interval [LogEntry.mk "work_start" 36000000] 43200000).2.1 "unregistered"
      (by decide)⟩

/-- C2: the duration a closed interval `[s, e)` contributes to the bucket
starting at `b` is `max 0 (e - max s b)`; since the code's single bucket
(today) has no upper end, this agrees with the spec formula
`max 0 (min e B - max s b)` for every upper bound `B` at or above the interval
end `e`; an interval lying entirely at or before the bucket start contributes
nothing; and with the day boundary at 05:00, the interval
`[Day1 23:00, Day2 06:00)` contributes exactly one hour (3600000 ms) to Day2's
bucket, both for the contribution function alone and through the full
aggregator at `now = Day2 12:00`. -/
theorem C2_clipping (s e b B : Int) (hB : e ≤ B) :
    clipContribution b s e = max 0 (min e B - max s b) ∧
    (e ≤ b → clipContribution b s e = 0) ∧
    clipContribution 104400000 82800000 108000000 = 3600000 ∧
    calculateTodayWorkTime [LogEntry.mk "work_start" 82800000, LogEntry.mk "work_end" 108000000]
      "unregistered" 129600000 = 3600000 := by
  refine ⟨?_, ?_, by decide, by decide⟩
  · unfold clipContribution
    rw [min_eq_left hB]
    exact ite_sub_eq_max e (max s b)
  · intro hb
    unfold clipContribution
    have h : e ≤ max s b := le_trans hb (le_max_right s b)
    exact if_neg (not_lt.2 h)

/-- C2 witness: the theorem applied to the concrete Day1 23:00 → Day2 06:00
interval, Day2 bucket start 05:00, and bucket upper bound Day2 12:00. -/
theorem C2_clipping_witness :
    clipContribution 104400000 82800000 108000000 =
      max 0 (min 108000000 129600000 - max 82800000 104400000) ∧
    ((108000000 : Int) ≤ 104400000 →
      clipContribution 104400000 82800000 108000000 = 0) :=
  ⟨(C2_clipping 82800000 108000000 104400000 129600000 (by decide)).1,
    (C2_clipping 82800000 108000000 104400000 129600000 (by decide)).2.1⟩

/-- C7: a start-like event (`work_start` or `break_end`) seen while a start is
already pending silently overwrites the pending start with its own timestamp,
leaving the running total unchanged and raising no error, so the earlier
dangling start contributes nothing: concretely
`[WorkStart@09:00, WorkStart@10:00, WorkEnd@11:00]` totals exactly one hour. -/
theorem C7_overwrite_pending_start (sot total s0 : Int) (e : LogEntry)
    (h : e.type = "work_start" ∨ e.type = "break_end") :
    scanStep sot (total, some s0) e = (total, some e.timestamp) ∧
    calculateTodayWorkTime [LogEntry.mk "work_start" 32400000,
      LogEntry.mk "work_start" 36000000, LogEntry.mk "work_end" 39600000]
      "unregistered" 43200000 = 3600000 :=
  ⟨scanStep_start sot (total, some s0) e h, by decide⟩

/-- C7 witness: the theorem applied with a `work_start` event at 10:00
arriving while the start 09:00 is pending. -/
theorem C7_overwrite_pending_start_witness :
    scanStep 18000000 (0, some 32400000) (LogEntry.mk "work_start" 36000000) =
      (0, some 36000000) :=
  (C7_overwrite_pending_start 18000000 0 32400000 (LogEntry.mk "work_start" 36000000)
    (Or.inl rfl)).1

/-- C8: an end-like event (`work_end` or `break_start`) seen while no start is
pending leaves both the total and the (absent) pending start unchanged, with no
error; concretely the log `[WorkEnd@09:00]` alone totals `0`. -/
theorem C8_unmatched_end_ignored (sot total : Int) (e : LogEntry)
    (h : e.type = "work_end" ∨ e.type = "break_start") :
    scanStep sot (total, none) e = (total, none) ∧
    calculateTodayWorkTime [LogEntry.mk "work_end" 32400000] "unregistered" 43200000 = 0 := by
  refine ⟨?_, by decide⟩
  rw [scanStep_end sot (total, none) e h]

/-- C8 witness: the theorem applied with a `work_end` event at 09:00 arriving
while no start is pending. -/
theorem C8_unmatched_end_ignored_witness :
    scanStep 18000000 (0, none) (LogEntry.mk "work_end" 32400000) = (0, none) :=
  (C8_unmatched_end_ignored 18000000 0 (LogEntry.mk "work_end" 32400000) (Or.inl rfl)).1

/-- C9: every scan step only ever adds to the running total (a clipped
contribution is never negative, never subtracted), and for every log, status
and reference instant — including clock skew, with `now` before some or all
event timestamps — the aggregated total is non-negative. -/
theorem C9_total_nonneg :
    (∀ (sot : Int) (acc : Int × Option Int) (e : LogEntry),
      acc.1 ≤ (scanStep sot acc e).1) ∧
    (∀ (logs : List LogEntry) (st : String) (now : Int),
      0 ≤ calculateTodayWorkTime logs st now) := by
  refine ⟨scanStep_fst_mono, ?_⟩
  intro logs st now
  have h0 : (0 : Int) ≤ (logs.foldl (scanStep (startOfToday now)) (0, none)).1 :=
    foldl_scanStep_fst_mono (startOfToday now) logs (0, none)
  rw [calculateTodayWorkTime_eq]
  rcases hr : (logs.foldl (scanStep (startOfToday now)) (0, none)).2 with _ | s <;>
    simp only [hr] <;> by_cases hst : st = "working"
  · rw [if_pos hst, add_zero]; exact h0
  · rw [if_neg hst, add_zero]; exact h0
  · rw [if_pos hst]
    exact add_nonneg h0 (ite_sub_nonneg now (max s (startOfToday now)))
  · rw [if_neg hst, add_zero]; exact h0

/-- C3 counterexample: the aggregator does not sort.  The unsorted log
`[WorkEnd@10:00, WorkStart@09:00]` yields total `0` (the end is seen first with
no pending start and is dropped), while its timestamp-sorted permutation
`[WorkStart@09:00, WorkEnd@10:00]` yields one hour, so the total on the log
differs from the total on the sorted permutation. -/
theorem C3_counterexample :
    List.Perm [LogEntry.mk "work_end" 36000000, LogEntry.mk "work_start" 32400000]
      [LogEntry.mk "work_start" 32400000, LogEntry.mk "work_end" 36000000] ∧
    List.Sorted (fun a b : LogEntry => a.timestamp ≤ b.timestamp)
      [LogEntry.mk "work_start" 32400000, LogEntry.mk "work_end" 36000000] ∧
    ¬(calculateTodayWorkTime
        [LogEntry.mk "work_end" 36000000, LogEntry.mk "work_start" 32400000]
        "unregistered" 43200000 =
      calculateTodayWorkTime
        [LogEntry.mk "work_start" 32400000, LogEntry.mk "work_end" 36000000]
        "unregistered" 43200000) := by
  refine ⟨List.Perm.swap _ _ _, ?_, by decide⟩
  simp [List.sorted_cons]

/-- C3 amended: the aggregator consumes the log in the caller's order without
sorting, so there is a log and a timestamp-sorted permutation of it on which
the computed totals differ (the function is total, so unsorted input still
never surfaces an error). -/
theorem C3_amended_order_dependent :
    ∃ l lSorted : List LogEntry,
      List.Perm l lSorted ∧
      List.Sorted (fun a b : LogEntry => a.timestamp ≤ b.timestamp) lSorted ∧
      ¬(calculateTodayWorkTime l "unregistered" 43200000 =
        calculateTodayWorkTime lSorted "unregistered" 43200000) := by
  refine ⟨[LogEntry.mk "break_start" 36000000, LogEntry.mk "break_end" 32400000],
    [LogEntry.mk "break_end" 32400000, LogEntry.mk "break_start" 36000000],
    List.Perm.swap _ _ _, ?_, by decide⟩
  simp [List.sorted_cons]

/-- C4 counterexample: a log containing the unrecognized kind `"bogus"` is not
rejected — the aggregator silently skips that entry and still produces a
duration (one hour) from the surrounding well-formed events. -/
theorem C4_counterexample :
    calculateTodayWorkTime
      [LogEntry.mk "work_start" 32400000, LogEntry.mk "bogus" 34200000,
        LogEntry.mk "work_end" 36000000] "unregistered" 43200000 = 3600000 := by
  decide

/-- C4 amended: an event whose kind is none of `work_start`, `work_end`,
`break_start`, `break_end` is silently ignored: it changes neither the scan
state nor the total, so the aggregate equals that of the log with the entry
removed, and the computation still produces a duration rather than an error. -/
theorem C4_amended_unknown_kind_ignored (logs1 logs2 : List LogEntry) (e : LogEntry)
    (st : String) (now : Int)
    (h1 : e.type ≠ "work_start") (h2 : e.type ≠ "work_end")
    (h3 : e.type ≠ "break_start") (h4 : e.type ≠ "break_end") :
    calculateTodayWorkTime (logs1 ++ e :: logs2) st now =
      calculateTodayWorkTime (logs1 ++ logs2) st now := by
  have key : (logs1 ++ e :: logs2).foldl (scanStep (startOfToday now)) (0, none) =
      (logs1 ++ logs2).foldl (scanStep (startOfToday now)) (0, none) := by
    rw [List.foldl_append, List.foldl_append, List.foldl_cons,
      scanStep_other (startOfToday now) _ e h1 h2 h3 h4]
  rw [calculateTodayWorkTime_eq, calculateTodayWorkTime_eq, key]

/-- C4 amended witness: the theorem applied to the concrete log
`[WorkStart@09:00, mystery@09:30, WorkEnd@10:00]`. -/
theorem C4_amended_unknown_kind_ignored_witness :
    calculateTodayWorkTime
      [LogEntry.mk "work_start" 32400000, LogEntry.mk "mystery" 34200000,
        LogEntry.mk "work_end" 36000000] "on_break" 43200000 =
    calculateTodayWorkTime
      [LogEntry.mk "work_start" 32400000, LogEntry.mk "work_end" 36000000]
      "on_break" 43200000 :=
  C4_amended_unknown_kind_ignored [LogEntry.mk "work_start" 32400000]
    [LogEntry.mk "work_end" 36000000] (LogEntry.mk "mystery" 34200000) "on_break" 43200000
    (by decide) (by decide) (by decide) (by decide)

/-- C5 counterexample: the source reads the clock internally
(`const now = new Date()`), and the reading matters — with identical explicit
source-level arguments (same one-entry log, same status `working`), the result
when the internal clock reads 09:30 differs from the result when it reads
10:00, so the output is not a function of the source signature's explicit
inputs alone. -/
theorem C5_counterexample :
    ¬(calculateTodayWorkTime [LogEntry.mk "work_start" 32400000] "working" 34200000 =
      calculateTodayWorkTime [LogEntry.mk "work_start" 32400000] "working" 36000000) := by
  decide

/-- C5 amended: with the internal clock read modelled as the explicit argument
`now`, the aggregator is deterministic — two calls with identical log, status
and clock instant return equal results — while the same log and status at two
different clock instants return different totals (30 minutes at 09:30, one
hour at 10:00). -/
theorem C5_amended_deterministic :
    (∀ (logs : List LogEntry) (st : String) (now r1 r2 : Int),
      calculateTodayWorkTime logs st now = r1 → calculateTodayWorkTime logs st now = r2 →
        r1 = r2) ∧
    calculateTodayWorkTime [LogEntry.mk "work_start" 32400000] "working" 34200000 = 1800000 ∧
    calculateTodayWorkTime [LogEntry.mk "work_start" 32400000] "working" 36000000 = 3600000 := by
  refine ⟨?_, by decide, by decide⟩
  intro logs st now r1 r2 e1 e2
  rw [← e1, ← e2]

/-- C5 amended witness: determinism applied at the concrete log
`[WorkStart@09:00]`, status `working`, clock instant 09:30. -/
theorem C5_amended_deterministic_witness : (1800000 : Int) = 1800000 :=
  C5_amended_deterministic.1 [LogEntry.mk "work_start" 32400000] "working" 34200000
    1800000 1800000 (by decide) (by decide)

/-- C6 counterexample: with log `[WorkStart@09:00]`, status `working` and
`now = 12:00`, the total is 3 hours; appending the well-formed closing event
`WorkEnd@10:00` (at or after every timestamp in the log and at or before
`now`) with the status updated accordingly to `unregistered` drops the total
to 1 hour, so appending a later well-formed closing event can decrease the
total. -/
theorem C6_counterexample :
    ¬(calculateTodayWorkTime [LogEntry.mk "work_start" 32400000] "working" 43200000 ≤
      calculateTodayWorkTime
        ([LogEntry.mk "work_start" 32400000] ++ [LogEntry.mk "work_end" 36000000])
        "unregistered" 43200000) := by
  decide

/-- C6 amended: appending a later well-formed closing event (a `work_end` or
`break_start` whose timestamp is at or after every timestamp in the log and at
or before `now`, with the status updated to a non-`working` one) never
decreases the total, provided the prior status was not `working` or the
closing event is stamped exactly at the reference instant `now`.  (When the
prior status is `working` and the closing timestamp is strictly before `now`
the total can decrease, because the open interval was previously counted all
the way to `now`.) -/
theorem C6_amended_monotonicity (logs : List LogEntry) (st stAfter : String) (now : Int)
    (e : LogEntry)
    (hkind : e.type = "work_end" ∨ e.type = "break_start")
    (hlater : ∀ l ∈ logs, l.timestamp ≤ e.timestamp)
    (hnow : e.timestamp ≤ now)
    (hok : st ≠ "working" ∨ e.timestamp = now)
    (hAfter : stAfter ≠ "working") :
    calculateTodayWorkTime logs st now ≤ calculateTodayWorkTime (logs ++ [e]) stAfter now := by
  rw [calculateTodayWorkTime_eq, calculateTodayWorkTime_eq, if_neg hAfter, add_zero,
    List.foldl_append, List.foldl_cons, List.foldl_nil, scanStep_end _ _ _ hkind]
  rcases hr : (logs.foldl (scanStep (startOfToday now)) (0, none)).2 with _ | s
  · simp only [hr]
    split_ifs with hst
    · omega
    · omega
  · simp only [hr]
    have hclip : clipContribution (startOfToday now) s e.timestamp =
        if e.timestamp > max s (startOfToday now) then e.timestamp - max s (startOfToday now)
        else 0 := rfl
    by_cases hst : st = "working"
    · rcases hok with hok | hok
      · exact absurd hst hok
      · rw [if_pos hst, hclip, hok]
    · rw [if_neg hst, add_zero, hclip]
      exact le_add_of_nonneg_right (ite_sub_nonneg e.timestamp (max s (startOfToday now)))

/-- C6 amended witness: the theorem applied to log `[WorkStart@09:00]` with
prior status `working` and a `WorkEnd` appended exactly at `now = 10:00`. -/
theorem C6_amended_monotonicity_witness :
    calculateTodayWorkTime [LogEntry.mk "work_start" 32400000] "working" 36000000 ≤
      calculateTodayWorkTime
        ([LogEntry.mk "work_start" 32400000] ++ [LogEntry.mk "work_end" 36000000])
        "unregistered" 36000000 :=
  C6_amended_monotonicity [LogEntry.mk "work_start" 32400000] "working" "unregistered"
    36000000 (LogEntry.mk "work_end" 36000000) (Or.inl rfl) (by decide) (by decide)
    (Or.inr rfl) (by decide)

/-- C10: for every non-negative integer `ms`, `formatDuration ms` renders
hours, minutes and seconds fields with minutes and seconds below 60 and
zero-padded to exactly two digits, the fields jointly satisfying
`hours * 3600 + minutes * 60 + seconds = ms / 1000`; the hours field is the
full quotient, not reduced modulo 24, and can exceed two digits, as at 100
hours where the output is `"100:00:00"`. -/
theorem C10_formatDuration_shape (ms : Nat) :
    (∃ h m s : Nat, m < 60 ∧ s < 60 ∧ h * 3600 + m * 60 + s = ms / 1000 ∧
      formatDuration ms =
        padStart (toString h) 2 '0' ++ ":" ++ padStart (toString m) 2 '0' ++ ":"
          ++ padStart (toString s) 2 '0' ∧
      (padStart (toString m) 2 '0').length = 2 ∧
      (padStart (toString s) 2 '0').length = 2) ∧
    formatDuration 360000000 = "100:00:00" := by
  have hlen : ∀ k : Nat, k < 60 → (padStart (toString k) 2 '0').length = 2 := by decide
  have hm : ms / (1000 * 60) % 60 < 60 := Nat.mod_lt _ (by norm_num)
  have hs : ms / 1000 % 60 < 60 := Nat.mod_lt _ (by norm_num)
  refine ⟨⟨ms / (1000 * 60 * 60), ms / (1000 * 60) % 60, ms / 1000 % 60,
    hm, hs, ?_, rfl, hlen _ hm, hlen _ hs⟩, by decide⟩
  have e1 : ms / (1000 * 60) = ms / 1000 / 60 := by
    rw [Nat.div_div_eq_div_mul]
  have e2 : ms / (1000 * 60 * 60) = ms / 1000 / 60 / 60 := by
    rw [Nat.div_div_eq_div_mul, Nat.div_div_eq_div_mul]
  rw [e1, e2]
  omega
